import Mathlib

/-! # Event manager canister: reservation and settlement

A shallow embedding of `src/dfinity_js_backend/src/index.ts`.

* Records (`Event`, `Ticket`, `User`, ...) are structures with the fields of the
  Candid records of the source; `text` is `String`, `nat64` is `Nat`.
* A `StableBTreeMap` is an association list with at most one visible entry per key:
  `get`, `insert` (which replaces), `remove` and `values`.  A key is encoded at the
  declared key type before the map is searched; where the source hands a `nat64` to the
  map declared with `text` keys, the encoder throws.
* The canister state is the four stable maps of the source plus the timers armed
  through `ic.setTimer`.
* What an update call reads from its environment (`ic.caller()`, `ic.time()`, the
  identifier drawn by `uuidv4()`, the answer of the ledger to `query_blocks`, and the
  library functions `hashCode().value` and `binaryAddressFromPrincipal`) is the `Env`
  argument of the call.
* An update call returns a `Reply` and the next state.  A thrown `Error` is the reply
  `Trap`; the state changes of a trapped call are rolled back.  The ledger always
  answers `query_blocks`; a rejected inter-canister call is not modelled.
-/

namespace EventManager

/-! ## Data model -/

/-- A principal, by its textual form (`Principal.toText`). -/
abbrev Principal := String

/-- A ledger account address: the bytes of a `Uint8Array`. -/
abbrev Address := List Nat

/-- Record `Event` (index.ts, lines 37-48). -/
structure Event where
  id : String
  title : String
  description : String
  date : String
  startTime : String
  attachmentURL : String
  location : String
  price : Nat
  seller : Principal
  soldAmount : Nat
  deriving DecidableEq, Repr

/-- Record `EventPayload` (lines 50-58). -/
structure EventPayload where
  title : String
  description : String
  location : String
  startTime : String
  attachmentURL : String
  date : String
  price : Nat
  deriving DecidableEq, Repr

/-- Record `Ticket` (lines 60-65). -/
structure Ticket where
  id : String
  eventId : String
  price : Nat
  userId : String
  deriving DecidableEq, Repr

/-- Record `User` (lines 67-74). -/
structure User where
  id : String
  name : String
  email : String
  phone : String
  address : String
  tickets : List String
  deriving DecidableEq, Repr

/-- Record `UserPayload` (lines 76-81). -/
structure UserPayload where
  name : String
  email : String
  phone : String
  address : String
  deriving DecidableEq, Repr

/-- Variant `ErrorType` (lines 83-88). -/
inductive ErrorType where
  | NotFound (msg : String)
  | InvalidPayload (msg : String)
  | PaymentFailed (msg : String)
  | PaymentCompleted (msg : String)
  deriving DecidableEq, Repr

/-- Record `TicketPayload` (lines 90-93). -/
structure TicketPayload where
  eventId : String
  userId : String
  deriving DecidableEq, Repr

/-- Record `TicketReturn` (lines 95-104). -/
structure TicketReturn where
  id : String
  eventId : String
  eventName : String
  price : Nat
  userId : String
  userName : String
  userEmail : String
  userPhone : String
  deriving DecidableEq, Repr

/-- The object literal `{ ...ticket, paid_at_block: Some(block) }` that `completePurchase`
builds (lines 360-363): a ticket with one more field. -/
structure UpdatedTicket where
  id : String
  eventId : String
  price : Nat
  userId : String
  paid_at_block : Option Nat
  deriving DecidableEq, Repr

/-- What is left of an `UpdatedTicket` where the source hands it over at the Candid type
`Ticket` (the value type of `persistedTickets`, line 124, and the result type of
`completePurchase`, line 340): the four fields that `Ticket` declares. -/
def UpdatedTicket.toTicket (u : UpdatedTicket) : Ticket :=
  { id := u.id, eventId := u.eventId, price := u.price, userId := u.userId }

/-- The reply of an update call: `Ok`, `Err`, or a thrown `Error`. -/
inductive Reply (α : Type) where
  | Ok (value : α)
  | Err (error : ErrorType)
  | Trap (msg : String)
  deriving DecidableEq, Repr

/-- A reply is successful when it is `Ok`. -/
def Reply.isOk {α : Type} : Reply α → Bool
  | .Ok _ => true
  | _ => false

/-! ## Stable maps -/

/-- A value that the source hands to a stable map as a key: a string, such as the id of
a ticket (line 326), or a bigint, such as a memo (lines 353 and 469). -/
inductive KeyArgument where
  | string (s : String)
  | bigint (n : Nat)
  deriving DecidableEq, Repr

/-- The encoder of a key for a map declared with `text` keys, as the map of pending
tickets is (line 125).  It runs before the map is searched: it accepts a string and
throws on a bigint. -/
def encodeTextKey : KeyArgument → Except String String
  | .string s => .ok s
  | .bigint n => .error ("Invalid text argument: BigInt(" ++ toString n ++ ")")

/-- The stable key-value map of the source.  The order of `values` is not modelled. -/
structure StableBTreeMap (K V : Type) where
  entries : List (K × V)
  deriving DecidableEq, Repr

namespace StableBTreeMap

variable {K V : Type} [DecidableEq K]

/-- Lookup in a list of entries: the first entry under the key. -/
def lookup : List (K × V) → K → Option V
  | [], _ => none
  | (k', v) :: rest, k => if k' = k then some v else lookup rest k

/-- All entries under another key. -/
def erase : List (K × V) → K → List (K × V)
  | [], _ => []
  | (k', v) :: rest, k => if k' = k then erase rest k else (k', v) :: erase rest k

/-- The empty map. -/
def empty : StableBTreeMap K V := ⟨[]⟩

/-- Method `get`. -/
def get (m : StableBTreeMap K V) (k : K) : Option V := lookup m.entries k

/-- Method `insert`: the value is stored under the key, replacing what was there.  (The
previous value, which the method returns, is never used by the source.) -/
def insert (m : StableBTreeMap K V) (k : K) (v : V) : StableBTreeMap K V :=
  ⟨(k, v) :: erase m.entries k⟩

/-- Method `remove`: the removed value, if any, and the map without the key. -/
def remove (m : StableBTreeMap K V) (k : K) : Option V × StableBTreeMap K V :=
  (lookup m.entries k, ⟨erase m.entries k⟩)

/-- Method `values`. -/
def values (m : StableBTreeMap K V) : List V := m.entries.map Prod.snd

end StableBTreeMap

/-! ## Ledger blocks -/

/-- The payload of a `Transfer` operation: its `from`, `to` and `amount.e8s`. -/
structure TransferArgs where
  from_ : Address
  to_ : Address
  amount_e8s : Nat
  deriving DecidableEq, Repr

/-- The operation of a ledger transaction.  Only `Transfer` is read by the source; the
payloads of the other variants are left out. -/
inductive Operation where
  | Transfer (t : TransferArgs)
  | Mint
  | Burn
  deriving DecidableEq, Repr

/-- The expression `operation.Transfer`: undefined for another variant. -/
def Operation.transfer? : Operation → Option TransferArgs
  | .Transfer t => some t
  | _ => none

/-- A ledger block: `block.transaction.memo` and `block.transaction.operation`. -/
structure Block where
  memo : Nat
  operation : Option Operation
  deriving DecidableEq, Repr

/-- The values that the source passes to `hash(input: any)`. -/
inductive JsValue where
  | undefined
  | bytes (a : Address)
  | str (s : String)
  deriving DecidableEq, Repr

/-! ## State and environment -/

/-- A timer armed by `ic.setTimer` in `discardByTimeout`: its delay and the memo that its
callback removes. -/
structure Timer where
  delay : Nat
  memo : Nat
  deriving DecidableEq, Repr

/-- The canister state: the stable maps of lines 123-126 and the armed timers. -/
structure State where
  eventsStorage : StableBTreeMap String Event
  persistedTickets : StableBTreeMap Principal Ticket
  eventTickets : StableBTreeMap String Ticket
  usersStorage : StableBTreeMap String User
  timers : List Timer
  deriving DecidableEq, Repr

/-- The state of a freshly installed canister. -/
def State.init : State :=
  { eventsStorage := StableBTreeMap.empty, persistedTickets := StableBTreeMap.empty,
    eventTickets := StableBTreeMap.empty, usersStorage := StableBTreeMap.empty,
    timers := [] }

/-- What one call reads from outside the canister state. -/
structure Env where
  /-- Result of `ic.caller()`. -/
  caller : Principal
  /-- Result of `ic.time()`. -/
  time : Nat
  /-- Result of `uuidv4()`. -/
  uuid : String
  /-- Library function `hashCode().value` of the package `hashcode`. -/
  hashCode : JsValue → Int
  /-- Library function `binaryAddressFromPrincipal(principal, subaccount)`. -/
  binaryAddressFromPrincipal : Principal → Nat → Address
  /-- Answer of the ledger canister to `query_blocks({ start, length })`: its `blocks`. -/
  query_blocks : Nat → Nat → List Block

/-- The largest `nat64` plus one. -/
def nat64Bound : Nat := 2 ^ 64

/-! ## Helpers of the source (lines 436-498) -/

/-- Function `hash` (lines 440-442): `BigInt(Math.abs(hashCode().value(input)))`. -/
def hash (env : Env) (input : JsValue) : Nat :=
  Int.natAbs (env.hashCode input)

/-- The string `correlationId` that `generateCorrelationId` builds (line 459). -/
def correlationId (env : Env) (eventId : String) : String :=
  eventId ++ "_" ++ env.caller ++ "_" ++ toString env.time

/-- Function `generateCorrelationId` (lines 458-461). -/
def generateCorrelationId (env : Env) (eventId : String) : Nat :=
  hash env (.str (correlationId env eventId))

/-- The callback that `discardByTimeout` registers (lines 468-471): it calls
`eventTickets.remove(memo)`.  The memo is a bigint and the keys of the map are `text`, so
the key is rejected, the callback throws and nothing is removed. -/
def discardCallback (memo : Nat) (s : State) : Reply Unit × State :=
  match encodeTextKey (.bigint memo) with
  | .error message => (.Trap message, s)
  | .ok key => (.Ok (), { s with eventTickets := (s.eventTickets.remove key).2 })

/-- Function `discardByTimeout` (lines 467-472): arms a timer. -/
def discardByTimeout (memo : Nat) (delay : Nat) (s : State) : State :=
  { s with timers := s.timers ++ [{ delay := delay, memo := memo }] }

/-- The predicate that `verifyPaymentInternal` passes to `blocks.find` (lines 483-496). -/
def blockMatches (env : Env) (receiver : Principal) (amount memo : Nat) (block : Block) :
    Bool :=
  match block.operation with
  | none => false
  | some operation =>
    let senderAddress := env.binaryAddressFromPrincipal env.caller 0
    let receiverAddress := env.binaryAddressFromPrincipal receiver 0
    let jsOf : Option Address → JsValue := fun a =>
      match a with
      | some b => .bytes b
      | none => .undefined
    decide (block.memo = memo) &&
    decide (hash env (.bytes senderAddress)
      = hash env (jsOf (operation.transfer?.map TransferArgs.from_))) &&
    decide (hash env (.bytes receiverAddress)
      = hash env (jsOf (operation.transfer?.map TransferArgs.to_))) &&
    decide (some amount = operation.transfer?.map TransferArgs.amount_e8s)

/-- Function `verifyPaymentInternal` (lines 474-498). -/
def verifyPaymentInternal (env : Env) (receiver : Principal) (amount block memo : Nat) :
    Bool :=
  let blockData := env.query_blocks block 1
  let tx := blockData.find? (blockMatches env receiver amount memo)
  tx.isSome

/-! ## Update methods -/

/-- Method `createTicket` (lines 283-336).  The two `insert` calls of the `try` block
receive string keys and well-typed values, which the encoders accept, so nothing is
thrown there and the `catch` branch has no counterpart. -/
def createTicket (env : Env) (s : State) (payload : TicketPayload) :
    Reply TicketReturn × State :=
  let eventOpt := s.eventsStorage.get payload.eventId
  let userOpt := s.usersStorage.get payload.userId
  match userOpt with
  | none => (.Err (.NotFound ("user=" ++ payload.userId ++ " not found")), s)
  | some user =>
    match eventOpt with
    | none => (.Err (.NotFound ("event=" ++ payload.eventId ++ " not found")), s)
    | some event =>
      let ticket : Ticket :=
        { id := env.uuid, eventId := event.id, price := event.price,
          userId := payload.userId }
      let returnTicket : TicketReturn :=
        { id := ticket.id, eventId := event.id, eventName := event.title,
          price := event.price, userId := payload.userId, userName := user.name,
          userEmail := user.email, userPhone := user.phone }
      let updatedUser : User := { user with tickets := user.tickets ++ [ticket.id] }
      (.Ok returnTicket,
        { s with
          eventTickets := s.eventTickets.insert ticket.id ticket
          usersStorage := s.usersStorage.insert payload.userId updatedUser })

/-- Method `completePurchase` (lines 338-374).  The state is the one in which the call
resumes after awaiting the ledger; the method reads no state before that.  Line 353
hands the `nat64` memo to the map of pending tickets, whose keys are `text`: the key is
encoded first, the encoder throws, and the call traps.  The lines after it are embedded
as they stand.  `soldAmount` is a BigInt, so `+= 1n` is exact; a counter that leaves the
`nat64` range is rejected when the event is written back, and the call traps. -/
def completePurchase (env : Env) (s : State) (seller : Principal) (id : String)
    (price block memo : Nat) : Reply Ticket × State :=
  let paymentVerified := verifyPaymentInternal env seller price block memo
  if !paymentVerified then
    (.Err (.NotFound ("cannot verify the payment, memo=" ++ toString memo)), s)
  else
    match encodeTextKey (.bigint memo) with
    | .error message => (.Trap message, s)
    | .ok key =>
      let pendingTicketOpt := s.eventTickets.remove key
      match pendingTicketOpt.1 with
      | none => (.Err (.NotFound ("there is no pending ticket with id=" ++ id)),
          { s with eventTickets := pendingTicketOpt.2 })
      | some ticket =>
        let updatedTicket : UpdatedTicket :=
          { id := ticket.id, eventId := ticket.eventId, price := ticket.price,
            userId := ticket.userId, paid_at_block := some block }
        match s.eventsStorage.get id with
        | none => (.Trap ("event with id=" ++ id ++ " not found"), s)
        | some event0 =>
          let event : Event := { event0 with soldAmount := event0.soldAmount + 1 }
          if event.soldAmount < nat64Bound then
            (.Ok updatedTicket.toTicket,
              { s with
                eventTickets := pendingTicketOpt.2
                eventsStorage := s.eventsStorage.insert event.id event
                persistedTickets :=
                  s.persistedTickets.insert env.caller updatedTicket.toTicket })
          else
            (.Trap "soldAmount out of the nat64 range", s)

/-- Method `addEvent` (lines 135-147).  The payload is a decoded Candid record, an object
with seven keys, so the guard of line 136 is never taken. -/
def addEvent (env : Env) (s : State) (payload : EventPayload) : Reply Event × State :=
  let event : Event :=
    { id := env.uuid, soldAmount := 0, seller := env.caller, title := payload.title,
      description := payload.description, location := payload.location,
      startTime := payload.startTime, attachmentURL := payload.attachmentURL,
      date := payload.date, price := payload.price }
  (.Ok event, { s with eventsStorage := s.eventsStorage.insert event.id event })

/-- Method `addUser` (lines 149-160).  The guard of line 150 is never taken, as in
`addEvent`. -/
def addUser (env : Env) (s : State) (payload : UserPayload) : Reply User × State :=
  let user : User :=
    { id := env.uuid, tickets := [], name := payload.name, email := payload.email,
      phone := payload.phone, address := payload.address }
  (.Ok user, { s with usersStorage := s.usersStorage.insert user.id user })

/-- Method `updateEvent` (lines 233-242). -/
def updateEvent (s : State) (payload : Event) : Reply Event × State :=
  match s.eventsStorage.get payload.id with
  | none => (.Err (.NotFound ("event with id=" ++ payload.id ++ " not found")), s)
  | some event =>
    (.Ok payload, { s with eventsStorage := s.eventsStorage.insert event.id payload })

/-- Method `updateUser` (lines 244-253). -/
def updateUser (s : State) (payload : User) : Reply User × State :=
  match s.usersStorage.get payload.id with
  | none => (.Err (.NotFound ("user with id=" ++ payload.id ++ " not found")), s)
  | some user =>
    (.Ok payload, { s with usersStorage := s.usersStorage.insert user.id payload })

/-- Method `deleteEvent` (lines 255-263). -/
def deleteEvent (s : State) (id : String) : Reply String × State :=
  let deletedEventOpt := s.eventsStorage.remove id
  match deletedEventOpt.1 with
  | none => (.Err (.NotFound ("event with id=" ++ id ++ " not found")),
      { s with eventsStorage := deletedEventOpt.2 })
  | some deleted => (.Ok deleted.id, { s with eventsStorage := deletedEventOpt.2 })

/-! ## Query methods -/

/-- Method `getEvent` (lines 198-204). -/
def getEvent (s : State) (id : String) : Reply Event :=
  match s.eventsStorage.get id with
  | none => .Err (.NotFound ("event with id=" ++ id ++ " not found"))
  | some event => .Ok event

/-- Method `getTickets` (lines 166-168). -/
def getTickets (s : State) : List Ticket := s.eventTickets.values

/-- Method `getSoldTickets` (lines 207-219). -/
def getSoldTickets (s : State) (id : String) : Reply (List Ticket) :=
  match s.eventsStorage.get id with
  | none => .Err (.NotFound ("event with id=" ++ id ++ " not found"))
  | some event =>
    .Ok (s.persistedTickets.values.filter (fun ticket => decide (ticket.eventId = event.id)))

/-- The callback of `map` in `getEventTickets` (lines 182-195) for one ticket.  When the
user of the ticket does not resolve, `userOpt.Some` is undefined, reading its `name`
throws, and there is no row. -/
def ticketRow (s : State) (event : Event) (ticket : Ticket) : Option TicketReturn :=
  match s.usersStorage.get ticket.userId with
  | none => none
  | some user =>
    some { id := ticket.id, eventId := event.id, eventName := event.title,
           price := event.price, userId := ticket.userId, userName := user.name,
           userEmail := user.email, userPhone := user.phone }

/-- The rows of a `map` whose callback may throw: all of them, or nothing when one
threw. -/
def collectRows : List (Option TicketReturn) → Option (List TicketReturn)
  | [] => some []
  | none :: _ => none
  | some row :: rest =>
    match collectRows rest with
    | none => none
    | some rows => some (row :: rows)

/-- Method `getEventTickets` (lines 171-196). -/
def getEventTickets (s : State) (id : String) : Reply (List TicketReturn) :=
  match s.eventsStorage.get id with
  | none => .Ok []
  | some event =>
    let tickets := s.eventTickets.values
    let rows := (tickets.filter (fun ticket => decide (ticket.eventId = event.id))).map
      (ticketRow s event)
    match collectRows rows with
    | none => .Trap "cannot read properties of undefined"
    | some result => .Ok result

/-! ## Runs of the canister -/

/-- One state change of the canister: an update method, with any environment and
arguments, or the callback of an armed timer. -/
inductive Step : State → State → Prop where
  | addEvent (env : Env) (s : State) (payload : EventPayload) :
      Step s (EventManager.addEvent env s payload).2
  | addUser (env : Env) (s : State) (payload : UserPayload) :
      Step s (EventManager.addUser env s payload).2
  | updateEvent (s : State) (payload : Event) :
      Step s (EventManager.updateEvent s payload).2
  | updateUser (s : State) (payload : User) :
      Step s (EventManager.updateUser s payload).2
  | deleteEvent (s : State) (id : String) :
      Step s (EventManager.deleteEvent s id).2
  | createTicket (env : Env) (s : State) (payload : TicketPayload) :
      Step s (EventManager.createTicket env s payload).2
  | completePurchase (env : Env) (s : State) (seller : Principal) (id : String)
      (price block memo : Nat) :
      Step s (EventManager.completePurchase env s seller id price block memo).2
  | timer (s : State) (t : Timer) (h : t ∈ s.timers) :
      Step s (discardCallback t.memo { s with timers := s.timers.erase t }).2

/-- The states that the canister reaches from its initial state. -/
inductive Reachable : State → Prop where
  | init : Reachable State.init
  | step {s s' : State} (hs : Reachable s) (h : Step s s') : Reachable s'

/-- The steps of `Step` other than `updateEvent`, with `addEvent` drawing an id under
which no event is stored. -/
inductive StepExceptUpdateEvent : State → State → Prop where
  | addEvent (env : Env) (s : State) (payload : EventPayload)
      (hfresh : s.eventsStorage.get env.uuid = none) :
      StepExceptUpdateEvent s (EventManager.addEvent env s payload).2
  | addUser (env : Env) (s : State) (payload : UserPayload) :
      StepExceptUpdateEvent s (EventManager.addUser env s payload).2
  | updateUser (s : State) (payload : User) :
      StepExceptUpdateEvent s (EventManager.updateUser s payload).2
  | deleteEvent (s : State) (id : String) :
      StepExceptUpdateEvent s (EventManager.deleteEvent s id).2
  | createTicket (env : Env) (s : State) (payload : TicketPayload) :
      StepExceptUpdateEvent s (EventManager.createTicket env s payload).2
  | completePurchase (env : Env) (s : State) (seller : Principal) (id : String)
      (price block memo : Nat) :
      StepExceptUpdateEvent s
        (EventManager.completePurchase env s seller id price block memo).2
  | timer (s : State) (t : Timer) (h : t ∈ s.timers) :
      StepExceptUpdateEvent s
        (discardCallback t.memo { s with timers := s.timers.erase t }).2

/-- Every stored event is stored under its own `id`. -/
def EventsKeyedById (s : State) : Prop :=
  ∀ (k : String) (e : Event), s.eventsStorage.get k = some e → e.id = k

/-- The user of every pending ticket resolves in the map of users. -/
def TicketUsersResolve (s : State) : Prop :=
  ∀ t ∈ s.eventTickets.values, ∃ u, s.usersStorage.get t.userId = some u

/-- Every stored user is stored under its own `id`. -/
def UsersKeyedById (s : State) : Prop :=
  ∀ (k : String) (u : User), s.usersStorage.get k = some u → u.id = k

/-- The pending tickets are stored under pairwise different keys. -/
def TicketKeysNodup (s : State) : Prop :=
  (s.eventTickets.entries.map Prod.fst).Nodup

/-- The integers that a JavaScript number can hold: up to the sign, a significand below
`2 ^ 53` times a power of two not above `2 ^ 971`.  In `hash` (line 441) the argument of
`BigInt` is the number that `Math.abs` returns, and `BigInt` accepts it only when it is
an integer. -/
def IsJsInteger (x : Int) : Prop :=
  ∃ m e : Nat, m < 2 ^ 53 ∧ e ≤ 971 ∧ x.natAbs = m * 2 ^ e

/-- The number that a list of decimal digit characters writes. -/
def decimalValue (cs : List Char) : Nat :=
  cs.foldl (fun acc c => 10 * acc + (c.toNat - 48)) 0

/-! ## Sample data

Concrete environments and states at which the theorems below are instantiated. -/

/-- A sample `hashCode().value`: the sum of the bytes, or the length of the string. -/
def sampleHashCode : JsValue → Int
  | .undefined => 0
  | .bytes a => Int.ofNat a.sum
  | .str s => Int.ofNat s.length

/-- A sample address derivation: the character codes of the principal. -/
def sampleAddress (p : Principal) (_subaccount : Nat) : Address :=
  p.toList.map Char.toNat

/-- A transfer of 500000000 e8s from the buyer to the seller with memo 7. -/
def samplePaidBlock : Block :=
  { memo := 7
    operation := some (.Transfer
      { from_ := sampleAddress "buyer" 0, to_ := sampleAddress "seller" 0,
        amount_e8s := 500000000 }) }

/-- The same transfer, but of 400000000 e8s. -/
def sampleUnderpaidBlock : Block :=
  { memo := 7
    operation := some (.Transfer
      { from_ := sampleAddress "buyer" 0, to_ := sampleAddress "seller" 0,
        amount_e8s := 400000000 }) }

/-- The paid transfer, sent from another address with the same sample hash. -/
def sampleForeignBlock : Block :=
  { memo := 7
    operation := some (.Transfer
      { from_ := (sampleAddress "buyer" 0).reverse, to_ := sampleAddress "seller" 0,
        amount_e8s := 500000000 }) }

/-- A sample ledger: blocks 42 and 43 hold the paid transfer, block 44 the underpaid one,
block 45 the one from the other address. -/
def sampleLedger (start _length : Nat) : List Block :=
  if start = 42 ∨ start = 43 then [samplePaidBlock]
  else if start = 44 then [sampleUnderpaidBlock]
  else if start = 45 then [sampleForeignBlock]
  else []

/-- A sample environment: the caller is the buyer and `uuidv4()` draws `uuid`. -/
def sampleEnv (uuid : String) : Env :=
  { caller := "buyer", time := 1, uuid := uuid, hashCode := sampleHashCode,
    binaryAddressFromPrincipal := sampleAddress, query_blocks := sampleLedger }

/-- A sample event of price 500000000 that nobody has bought yet. -/
def sampleEvent : Event :=
  { id := "e1", title := "Concert", description := "", date := "", startTime := "",
    attachmentURL := "", location := "", price := 500000000, seller := "seller",
    soldAmount := 0 }

/-- A sample user. -/
def sampleUser : User :=
  { id := "u1", name := "Ann", email := "ann@example.org", phone := "555", address := "",
    tickets := [] }

/-- A state with the sample event and the sample user and no ticket. -/
def sampleCatalog : State :=
  { State.init with
    eventsStorage := StableBTreeMap.empty.insert "e1" sampleEvent
    usersStorage := StableBTreeMap.empty.insert "u1" sampleUser }

/-- The pending ticket of the sample reservation. -/
def sampleTicket : Ticket :=
  { id := "t1", eventId := "e1", price := 500000000, userId := "u1" }

/-- The summary that `createTicket` returns for the sample event and user. -/
def sampleReturn : TicketReturn :=
  { id := "t1", eventId := "e1", eventName := "Concert", price := 500000000,
    userId := "u1", userName := "Ann", userEmail := "ann@example.org", userPhone := "555" }

/-- The sample catalog after `createTicket` for the sample event and user. -/
def sampleReserved : State :=
  { sampleCatalog with
    eventTickets := StableBTreeMap.empty.insert "t1" sampleTicket
    usersStorage := StableBTreeMap.empty.insert "u1" { sampleUser with tickets := ["t1"] } }

/-- The payload of `addEvent` that creates the sample event. -/
def sampleEventPayload : EventPayload :=
  { title := "Concert", description := "", location := "", startTime := "",
    attachmentURL := "", date := "", price := 500000000 }

/-- The payload of `addUser` that creates the sample user. -/
def sampleUserPayload : UserPayload :=
  { name := "Ann", email := "ann@example.org", phone := "555", address := "" }

/-- The environment of the seller's call of `addEvent`. -/
def sampleSellerEnv : Env :=
  { sampleEnv "e1" with caller := "seller" }

/-- The state `sampleReserved` after the seller raised the price of the sample event to
600000000 through `updateEvent`. -/
def sampleRepriced : State :=
  (updateEvent sampleReserved { sampleEvent with price := 600000000 }).2

/-- The sample catalog after the seller set `soldAmount` of the sample event to 5 through
`updateEvent`. -/
def sampleSold : State :=
  (updateEvent sampleCatalog { sampleEvent with soldAmount := 5 }).2

/-- The sample environment with a library whose hash code is always 0. -/
def sampleZeroHashEnv : Env :=
  { sampleEnv "t1" with hashCode := fun _ => 0 }

/-! ## Facts about stable maps -/

namespace StableBTreeMap

variable {K V : Type} [DecidableEq K]

theorem lookup_erase_self (l : List (K × V)) (k : K) : lookup (erase l k) k = none := by
  induction l with
  | nil => rfl
  | cons p rest ih =>
    obtain ⟨k', v⟩ := p
    by_cases h : k' = k
    · simp [erase, h, ih]
    · simp [erase, lookup, h, ih]

theorem lookup_erase_ne (l : List (K × V)) {k k' : K} (h : k' ≠ k) :
    lookup (erase l k) k' = lookup l k' := by
  induction l with
  | nil => rfl
  | cons p rest ih =>
    obtain ⟨k₀, v⟩ := p
    by_cases h₀ : k₀ = k
    · have h₁ : ¬ k₀ = k' := fun e => h (e ▸ h₀)
      simp only [erase, lookup, if_pos h₀, if_neg h₁, ih]
    · by_cases h₂ : k₀ = k'
      · simp only [erase, lookup, if_neg h₀, if_pos h₂]
      · simp only [erase, lookup, if_neg h₀, if_neg h₂, ih]

theorem erase_of_lookup_none (l : List (K × V)) (k : K) (h : lookup l k = none) :
    erase l k = l := by
  induction l with
  | nil => rfl
  | cons p rest ih =>
    obtain ⟨k', v⟩ := p
    by_cases h' : k' = k
    · simp [lookup, h'] at h
    · simp [lookup, h'] at h
      simp [erase, h', ih h]

theorem get_insert_self (m : StableBTreeMap K V) (k : K) (v : V) :
    (m.insert k v).get k = some v := by
  simp [get, insert, lookup]

theorem get_insert_ne (m : StableBTreeMap K V) {k k' : K} (v : V) (h : k' ≠ k) :
    (m.insert k v).get k' = m.get k' := by
  have h' : ¬ k = k' := fun e => h e.symm
  simp [get, insert, lookup, h', lookup_erase_ne _ h]

theorem get_remove_self (m : StableBTreeMap K V) (k : K) : (m.remove k).2.get k = none := by
  simp [get, remove, lookup_erase_self]

theorem get_remove_ne (m : StableBTreeMap K V) {k k' : K} (h : k' ≠ k) :
    (m.remove k).2.get k' = m.get k' := by
  simp [get, remove, lookup_erase_ne _ h]

theorem remove_fst (m : StableBTreeMap K V) (k : K) : (m.remove k).1 = m.get k := rfl

theorem remove_of_get_none (m : StableBTreeMap K V) (k : K) (h : m.get k = none) :
    (m.remove k).2 = m := by
  cases m with
  | mk entries =>
    simp only [remove]
    congr
    exact erase_of_lookup_none entries k h

end StableBTreeMap

/-! ## Facts about the methods -/

/-- A successful `createTicket` found the user and the event, and its effect is the two
inserts of lines 326-327. -/
theorem createTicket_ok {env : Env} {s s' : State} {payload : TicketPayload}
    {ret : TicketReturn} (h : createTicket env s payload = (.Ok ret, s')) :
    ∃ event user, s.eventsStorage.get payload.eventId = some event ∧
      s.usersStorage.get payload.userId = some user ∧
      ret = { id := env.uuid, eventId := event.id, eventName := event.title,
              price := event.price, userId := payload.userId, userName := user.name,
              userEmail := user.email, userPhone := user.phone } ∧
      s' = { s with
        eventTickets := s.eventTickets.insert env.uuid
          { id := env.uuid, eventId := event.id, price := event.price,
            userId := payload.userId }
        usersStorage := s.usersStorage.insert payload.userId
          { user with tickets := user.tickets ++ [env.uuid] } } := by
  unfold createTicket at h
  cases hu : s.usersStorage.get payload.userId with
  | none => simp [hu] at h
  | some user =>
    cases he : s.eventsStorage.get payload.eventId with
    | none => simp [hu, he] at h
    | some event =>
      simp only [hu, he, Prod.mk.injEq, Reply.Ok.injEq] at h
      exact ⟨event, user, rfl, rfl, h.1.symm, h.2.symm⟩

/-- When the payment is not verified, `completePurchase` answers `NotFound` and changes
nothing. -/
theorem completePurchase_unverified (env : Env) (s : State) (seller : Principal)
    (id : String) (price block memo : Nat)
    (hv : verifyPaymentInternal env seller price block memo = false) :
    completePurchase env s seller id price block memo
      = (.Err (.NotFound ("cannot verify the payment, memo=" ++ toString memo)), s) := by
  unfold completePurchase
  simp [hv]

/-- When the payment is verified, `completePurchase` traps at line 353, where the memo is
rejected as a key, and changes nothing. -/
theorem completePurchase_verified (env : Env) (s : State) (seller : Principal)
    (id : String) (price block memo : Nat)
    (hv : verifyPaymentInternal env seller price block memo = true) :
    completePurchase env s seller id price block memo
      = (.Trap ("Invalid text argument: BigInt(" ++ toString memo ++ ")"), s) := by
  unfold completePurchase
  simp [hv, encodeTextKey]

/-- No call of `completePurchase` changes the state. -/
theorem completePurchase_state (env : Env) (s : State) (seller : Principal) (id : String)
    (price block memo : Nat) :
    (completePurchase env s seller id price block memo).2 = s := by
  cases hv : verifyPaymentInternal env seller price block memo with
  | false => rw [completePurchase_unverified env s seller id price block memo hv]
  | true => rw [completePurchase_verified env s seller id price block memo hv]

/-- The timer callback throws at `eventTickets.remove(memo)` and changes nothing. -/
theorem discardCallback_traps (memo : Nat) (s : State) :
    discardCallback memo s
      = (.Trap ("Invalid text argument: BigInt(" ++ toString memo ++ ")"), s) := by
  simp [discardCallback, encodeTextKey]

/-! ## Invariants of the reachable states -/

theorem insert_keyedById {m : StableBTreeMap String Event} {e : Event}
    (hm : ∀ (k : String) (x : Event), m.get k = some x → x.id = k) :
    ∀ (k : String) (x : Event), (m.insert e.id e).get k = some x → x.id = k := by
  intro k x hx
  by_cases hk : k = e.id
  · subst hk
    rw [StableBTreeMap.get_insert_self] at hx
    cases hx
    rfl
  · rw [StableBTreeMap.get_insert_ne _ _ hk] at hx
    exact hm k x hx

theorem step_eventsKeyedById {s s' : State} (h : Step s s') (hs : EventsKeyedById s) :
    EventsKeyedById s' := by
  cases h with
  | addEvent env _ payload => exact insert_keyedById hs
  | addUser env _ payload => exact hs
  | updateEvent _ payload =>
    unfold updateEvent
    cases he : s.eventsStorage.get payload.id with
    | none => exact hs
    | some event =>
      have hid : event.id = payload.id := hs _ _ he
      show ∀ (k : String) (x : Event),
        (s.eventsStorage.insert event.id payload).get k = some x → x.id = k
      rw [hid]
      exact insert_keyedById hs
  | updateUser _ payload =>
    unfold updateUser
    cases s.usersStorage.get payload.id <;> exact hs
  | deleteEvent _ id =>
    have key : ∀ (k : String) (x : Event),
        ((s.eventsStorage.remove id).2).get k = some x → x.id = k := by
      intro k x hx
      by_cases hk : k = id
      · subst hk
        rw [StableBTreeMap.get_remove_self] at hx
        cases hx
      · rw [StableBTreeMap.get_remove_ne _ hk] at hx
        exact hs k x hx
    simp only [deleteEvent]
    split <;> exact key
  | createTicket env _ payload =>
    unfold createTicket
    cases s.usersStorage.get payload.userId with
    | none => exact hs
    | some user =>
      cases s.eventsStorage.get payload.eventId with
      | none => exact hs
      | some event => exact hs
  | completePurchase env _ seller id price block memo =>
    rw [completePurchase_state]
    exact hs
  | timer _ t ht =>
    rw [discardCallback_traps]
    exact hs

/-- In every reachable state each event is stored under its own `id`. -/
theorem reachable_eventsKeyedById {s : State} (h : Reachable s) : EventsKeyedById s := by
  induction h with
  | init => intro k e he; cases he
  | step _ hstep ih => exact step_eventsKeyedById hstep ih

/-- The sample catalog is reached by one `addEvent` and one `addUser`. -/
theorem reachable_sampleCatalog : Reachable sampleCatalog := by
  have h1 := Reachable.step Reachable.init
    (Step.addEvent sampleSellerEnv State.init sampleEventPayload)
  have h2 := Reachable.step h1 (Step.addUser (sampleEnv "u1") _ sampleUserPayload)
  have e : (addUser (sampleEnv "u1")
      (addEvent sampleSellerEnv State.init sampleEventPayload).2 sampleUserPayload).2
      = sampleCatalog := by decide
  rw [e] at h2
  exact h2

/-- One step from the sample catalog: the state after the sample reservation. -/
theorem reachable_sampleReserved : Reachable sampleReserved := by
  have h := Reachable.step reachable_sampleCatalog
    (Step.createTicket (sampleEnv "t1") sampleCatalog { eventId := "e1", userId := "u1" })
  have e : (createTicket (sampleEnv "t1") sampleCatalog
      { eventId := "e1", userId := "u1" }).2 = sampleReserved := by decide
  rw [e] at h
  exact h

theorem step_timers {s s' : State} (h : Step s s') (hs : s.timers = []) : s'.timers = [] := by
  cases h with
  | addEvent env _ payload => exact hs
  | addUser env _ payload => exact hs
  | updateEvent _ payload =>
    unfold updateEvent
    cases s.eventsStorage.get payload.id <;> exact hs
  | updateUser _ payload =>
    unfold updateUser
    cases s.usersStorage.get payload.id <;> exact hs
  | deleteEvent _ id =>
    simp only [deleteEvent]
    split <;> exact hs
  | createTicket env _ payload =>
    unfold createTicket
    cases s.usersStorage.get payload.userId with
    | none => exact hs
    | some user =>
      cases s.eventsStorage.get payload.eventId with
      | none => exact hs
      | some event => exact hs
  | completePurchase env _ seller id price block memo =>
    rw [completePurchase_state]
    exact hs
  | timer _ t ht =>
    rw [hs] at ht
    cases ht

/-- No timer is armed in any reachable state: nothing calls `discardByTimeout`. -/
theorem reachable_timers {s : State} (h : Reachable s) : s.timers = [] := by
  induction h with
  | init => rfl
  | step _ hstep ih => exact step_timers hstep ih

theorem step_persistedTickets {s s' : State} (h : Step s s') :
    s'.persistedTickets = s.persistedTickets := by
  cases h with
  | addEvent env _ payload => rfl
  | addUser env _ payload => rfl
  | updateEvent _ payload =>
    unfold updateEvent
    cases s.eventsStorage.get payload.id <;> rfl
  | updateUser _ payload =>
    unfold updateUser
    cases s.usersStorage.get payload.id <;> rfl
  | deleteEvent _ id =>
    simp only [deleteEvent]
    split <;> rfl
  | createTicket env _ payload =>
    unfold createTicket
    cases s.usersStorage.get payload.userId with
    | none => rfl
    | some user =>
      cases s.eventsStorage.get payload.eventId with
      | none => rfl
      | some event => rfl
  | completePurchase env _ seller id price block memo =>
    rw [completePurchase_state]
  | timer _ t ht =>
    rw [discardCallback_traps]

/-- No settled ticket is stored in any reachable state: the only write to the map of
settled tickets is line 371, which no call reaches. -/
theorem reachable_persistedTickets {s : State} (h : Reachable s) :
    s.persistedTickets = StableBTreeMap.empty := by
  induction h with
  | init => rfl
  | step _ hstep ih => rw [step_persistedTickets hstep, ih]

/-! ## Users and pending tickets in the reachable states -/

theorem StepExceptUpdateEvent.toStep {s s' : State} (h : StepExceptUpdateEvent s s') :
    Step s s' := by
  cases h with
  | addEvent env _ payload _ => exact Step.addEvent env s payload
  | addUser env _ payload => exact Step.addUser env s payload
  | updateUser _ payload => exact Step.updateUser s payload
  | deleteEvent _ id => exact Step.deleteEvent s id
  | createTicket env _ payload => exact Step.createTicket env s payload
  | completePurchase env _ seller id price block memo =>
    exact Step.completePurchase env s seller id price block memo
  | timer _ t ht => exact Step.timer s t ht

namespace StableBTreeMap

variable {K V : Type} [DecidableEq K]

theorem mem_of_mem_erase {l : List (K × V)} {k : K} {x : K × V} (h : x ∈ erase l k) :
    x ∈ l := by
  induction l with
  | nil => cases h
  | cons p rest ih =>
    obtain ⟨k', v⟩ := p
    by_cases hk : k' = k
    · simp only [erase, if_pos hk] at h
      exact List.mem_cons_of_mem _ (ih h)
    · simp only [erase, if_neg hk, List.mem_cons] at h
      rcases h with h | h
      · exact h ▸ List.mem_cons_self _ _
      · exact List.mem_cons_of_mem _ (ih h)

theorem keys_erase_sublist (l : List (K × V)) (k : K) :
    ((erase l k).map Prod.fst).Sublist (l.map Prod.fst) := by
  induction l with
  | nil => exact List.Sublist.slnil
  | cons p rest ih =>
    obtain ⟨k', v⟩ := p
    by_cases hk : k' = k
    · simp only [erase, if_pos hk, List.map_cons]
      exact List.Sublist.cons _ ih
    · simp only [erase, if_neg hk, List.map_cons]
      exact List.Sublist.cons₂ _ ih

theorem not_mem_keys_erase (l : List (K × V)) (k : K) : k ∉ (erase l k).map Prod.fst := by
  intro h
  obtain ⟨x, hx, hk⟩ := List.mem_map.mp h
  induction l with
  | nil => cases hx
  | cons p rest ih =>
    obtain ⟨k', v⟩ := p
    by_cases hk' : k' = k
    · simp only [erase, if_pos hk'] at hx h
      exact ih h hx
    · simp only [erase, if_neg hk', List.mem_cons] at hx
      rcases hx with hx | hx
      · subst hx
        exact hk' hk
      · exact ih (List.mem_map.mpr ⟨x, hx, hk⟩) hx

theorem mem_values_insert {m : StableBTreeMap K V} {k : K} {v t : V}
    (h : t ∈ (m.insert k v).values) : t = v ∨ t ∈ m.values := by
  simp only [values, insert, List.map_cons, List.mem_cons, List.mem_map] at h ⊢
  rcases h with h | ⟨x, hx, rfl⟩
  · exact Or.inl h
  · exact Or.inr ⟨x, mem_of_mem_erase hx, rfl⟩

theorem mem_values_remove {m : StableBTreeMap K V} {k : K} {t : V}
    (h : t ∈ (m.remove k).2.values) : t ∈ m.values := by
  simp only [values, remove, List.mem_map] at h ⊢
  obtain ⟨x, hx, rfl⟩ := h
  exact ⟨x, mem_of_mem_erase hx, rfl⟩

theorem get_insert_exists (m : StableBTreeMap K V) (k k' : K) (v : V)
    (h : ∃ u, m.get k' = some u) : ∃ u, (m.insert k v).get k' = some u := by
  by_cases hk : k' = k
  · subst hk
    exact ⟨v, get_insert_self _ _ _⟩
  · rw [get_insert_ne _ _ hk]
    exact h

end StableBTreeMap

theorem insert_userKeyedById {m : StableBTreeMap String User} {u : User}
    (hm : ∀ (k : String) (x : User), m.get k = some x → x.id = k) :
    ∀ (k : String) (x : User), (m.insert u.id u).get k = some x → x.id = k := by
  intro k x hx
  by_cases hk : k = u.id
  · subst hk
    rw [StableBTreeMap.get_insert_self] at hx
    cases hx
    rfl
  · rw [StableBTreeMap.get_insert_ne _ _ hk] at hx
    exact hm k x hx

theorem step_usersKeyedById {s s' : State} (h : Step s s') (hs : UsersKeyedById s) :
    UsersKeyedById s' := by
  cases h with
  | addEvent env _ payload => exact hs
  | addUser env _ payload => exact insert_userKeyedById hs
  | updateEvent _ payload =>
    unfold updateEvent
    cases s.eventsStorage.get payload.id <;> exact hs
  | updateUser _ payload =>
    unfold updateUser
    cases hu : s.usersStorage.get payload.id with
    | none => exact hs
    | some user =>
      have hid : user.id = payload.id := hs _ _ hu
      show ∀ (k : String) (x : User),
        (s.usersStorage.insert user.id payload).get k = some x → x.id = k
      rw [hid]
      exact insert_userKeyedById hs
  | deleteEvent _ id =>
    simp only [deleteEvent]
    split <;> exact hs
  | createTicket env _ payload =>
    unfold createTicket
    cases hu : s.usersStorage.get payload.userId with
    | none => exact hs
    | some user =>
      cases s.eventsStorage.get payload.eventId with
      | none => exact hs
      | some event =>
        have hid : user.id = payload.userId := hs _ _ hu
        show ∀ (k : String) (x : User),
          (s.usersStorage.insert payload.userId
            { user with tickets := user.tickets ++ [env.uuid] }).get k = some x → x.id = k
        rw [← hid]
        exact insert_userKeyedById (u := { user with tickets := user.tickets ++ [env.uuid] }) hs
  | completePurchase env _ seller id price block memo =>
    rw [completePurchase_state]
    exact hs
  | timer _ t ht =>
    rw [discardCallback_traps]
    exact hs

/-- In every reachable state each user is stored under its own `id`. -/
theorem reachable_usersKeyedById {s : State} (h : Reachable s) : UsersKeyedById s := by
  induction h with
  | init => intro k u hu; cases hu
  | step _ hstep ih => exact step_usersKeyedById hstep ih

theorem step_ticketUsersResolve {s s' : State} (h : Step s s') (hs : TicketUsersResolve s) :
    TicketUsersResolve s' := by
  cases h with
  | addEvent env _ payload => exact hs
  | addUser env _ payload =>
    intro t ht
    exact StableBTreeMap.get_insert_exists _ _ _ _ (hs t ht)
  | updateEvent _ payload =>
    unfold updateEvent
    cases s.eventsStorage.get payload.id <;> exact hs
  | updateUser _ payload =>
    unfold updateUser
    cases s.usersStorage.get payload.id with
    | none => exact hs
    | some user =>
      intro t ht
      exact StableBTreeMap.get_insert_exists _ _ _ _ (hs t ht)
  | deleteEvent _ id =>
    simp only [deleteEvent]
    split <;> exact hs
  | createTicket env _ payload =>
    unfold createTicket
    cases s.usersStorage.get payload.userId with
    | none => exact hs
    | some user =>
      cases s.eventsStorage.get payload.eventId with
      | none => exact hs
      | some event =>
        intro t ht
        rcases StableBTreeMap.mem_values_insert ht with h | h
        · subst h
          exact ⟨_, StableBTreeMap.get_insert_self _ _ _⟩
        · exact StableBTreeMap.get_insert_exists _ _ _ _ (hs t h)
  | completePurchase env _ seller id price block memo =>
    rw [completePurchase_state]
    exact hs
  | timer _ t ht =>
    rw [discardCallback_traps]
    exact hs

/-- In every reachable state the user of each pending ticket resolves. -/
theorem reachable_ticketUsersResolve {s : State} (h : Reachable s) :
    TicketUsersResolve s := by
  induction h with
  | init => intro t ht; cases ht
  | step _ hstep ih => exact step_ticketUsersResolve hstep ih

theorem step_ticketKeysNodup {s s' : State} (h : Step s s') (hs : TicketKeysNodup s) :
    TicketKeysNodup s' := by
  have hrem : ∀ k : String, ((s.eventTickets.remove k).2.entries.map Prod.fst).Nodup :=
    fun k => List.Nodup.sublist (StableBTreeMap.keys_erase_sublist _ k) hs
  cases h with
  | addEvent env _ payload => exact hs
  | addUser env _ payload => exact hs
  | updateEvent _ payload =>
    unfold updateEvent
    cases s.eventsStorage.get payload.id <;> exact hs
  | updateUser _ payload =>
    unfold updateUser
    cases s.usersStorage.get payload.id <;> exact hs
  | deleteEvent _ id =>
    simp only [deleteEvent]
    split <;> exact hs
  | createTicket env _ payload =>
    unfold createTicket
    cases s.usersStorage.get payload.userId with
    | none => exact hs
    | some user =>
      cases s.eventsStorage.get payload.eventId with
      | none => exact hs
      | some event =>
        exact List.Nodup.cons (StableBTreeMap.not_mem_keys_erase _ _) (hrem _)
  | completePurchase env _ seller id price block memo =>
    rw [completePurchase_state]
    exact hs
  | timer _ t ht =>
    rw [discardCallback_traps]
    exact hs

/-- In every reachable state the pending tickets have pairwise different keys, so
`values` lists each pending ticket once. -/
theorem reachable_ticketKeysNodup {s : State} (h : Reachable s) : TicketKeysNodup s := by
  induction h with
  | init => exact List.nodup_nil
  | step _ hstep ih => exact step_ticketKeysNodup hstep ih

/-- When the user of every ticket of a list resolves, every row is built, one per
ticket and in the same order. -/
theorem collectRows_of_resolve (s : State) (event : Event) (l : List Ticket)
    (h : ∀ t ∈ l, ∃ u, s.usersStorage.get t.userId = some u) :
    ∃ rows, collectRows (l.map (ticketRow s event)) = some rows ∧
      rows.map TicketReturn.id = l.map Ticket.id ∧
      rows.map TicketReturn.userId = l.map Ticket.userId := by
  induction l with
  | nil => exact ⟨[], rfl, rfl, rfl⟩
  | cons t rest ih =>
    obtain ⟨rows, hrows, hid, huid⟩ := ih (fun x hx => h x (List.mem_cons_of_mem _ hx))
    obtain ⟨u, hu⟩ := h t (List.mem_cons_self _ _)
    refine ⟨{ id := t.id, eventId := event.id, eventName := event.title,
              price := event.price, userId := t.userId, userName := u.name,
              userEmail := u.email, userPhone := u.phone } :: rows, ?_, ?_, ?_⟩
    · simp only [List.map_cons, ticketRow, hu, collectRows, hrows]
    · simp only [List.map_cons, hid]
    · simp only [List.map_cons, huid]


/-! ## Decimal printing -/

theorem digitChar_value (d : Nat) (h : d < 10) : (Nat.digitChar d).toNat - 48 = d := by
  interval_cases d <;> rfl

theorem foldl_toDigitsCore (fuel n : Nat) (ds : List Char) (h : n < fuel) :
    (Nat.toDigitsCore 10 fuel n ds).foldl (fun acc c => 10 * acc + (c.toNat - 48)) 0
      = ds.foldl (fun acc c => 10 * acc + (c.toNat - 48)) n := by
  induction fuel generalizing n ds with
  | zero => omega
  | succ fuel ih =>
    simp only [Nat.toDigitsCore]
    split
    · have hn : n % 10 = n := by omega
      simp only [List.foldl_cons, Nat.mul_zero, Nat.zero_add]
      rw [digitChar_value _ (Nat.mod_lt _ (by decide)), hn]
    · rw [ih (n / 10) _ (by omega)]
      simp only [List.foldl_cons]
      rw [digitChar_value _ (Nat.mod_lt _ (by decide))]
      congr 1
      omega

/-- Reading the decimal digits that `toString` prints gives the number back. -/
theorem decimalValue_toString (n : Nat) : decimalValue (toString n).data = n := by
  show decimalValue (Nat.repr n).data = n
  simp only [Nat.repr, Nat.toDigits, List.asString, decimalValue]
  rw [foldl_toDigitsCore _ _ _ (Nat.lt_succ_self n)]
  rfl

theorem toString_nat_injective {m n : Nat} (h : toString m = toString n) : m = n := by
  rw [← decimalValue_toString m, ← decimalValue_toString n, h]

theorem append_left_cancel_string {a b c : String} (h : a ++ b = a ++ c) : b = c := by
  have h' := congrArg String.data h
  simp only [String.data_append] at h'
  exact String.ext (List.append_cancel_left h')

/-! ## The values of `hash` -/

/-- A function with values `m * 2 ^ e`, `m < A` and `e < B`, takes the same value at two
different arguments below `N` when `A * B < N`. -/
theorem collision_of_few_values (A B N : Nat) (hN : A * B < N) (f : Nat → Nat)
    (hf : ∀ t, ∃ m e : Nat, m < A ∧ e < B ∧ f t = m * 2 ^ e) :
    ∃ t₁ t₂ : Nat, t₁ < N ∧ t₂ < N ∧ t₁ ≠ t₂ ∧ f t₁ = f t₂ := by
  have hcard : ((Finset.range A ×ˢ Finset.range B).image (fun p => p.1 * 2 ^ p.2)).card
      < (Finset.range N).card := by
    refine lt_of_le_of_lt Finset.card_image_le ?_
    rw [Finset.card_product, Finset.card_range, Finset.card_range, Finset.card_range]
    exact hN
  have hmaps : ∀ t ∈ Finset.range N,
      f t ∈ (Finset.range A ×ˢ Finset.range B).image (fun p => p.1 * 2 ^ p.2) := by
    intro t _
    obtain ⟨m, e, hm, he, hval⟩ := hf t
    rw [Finset.mem_image]
    refine ⟨(m, e), ?_, hval.symm⟩
    rw [Finset.mem_product, Finset.mem_range, Finset.mem_range]
    exact ⟨hm, he⟩
  obtain ⟨t₁, h₁, t₂, h₂, hne, heq⟩ :=
    Finset.exists_ne_map_eq_of_card_lt_of_maps_to hcard hmaps
  exact ⟨t₁, t₂, Finset.mem_range.mp h₁, Finset.mem_range.mp h₂, hne, heq⟩

/-- Whatever the library function `hashCode().value` is, when its results are integers
that a JavaScript number can hold, then for every event id and caller two different
`nat64` timestamps give the same correlation id: there are fewer such integers than
timestamps. -/
theorem generateCorrelationId_collision (env : Env)
    (hnum : ∀ v, IsJsInteger (env.hashCode v)) (eventId : String) :
    ∃ t₁ t₂ : Nat, t₁ < nat64Bound ∧ t₂ < nat64Bound ∧ t₁ ≠ t₂ ∧
      generateCorrelationId { env with time := t₁ } eventId
        = generateCorrelationId { env with time := t₂ } eventId := by
  have hN : 2 ^ 53 * 972 < nat64Bound := by
    unfold nat64Bound
    norm_num
  refine collision_of_few_values (2 ^ 53) 972 nat64Bound hN
    (fun t => generateCorrelationId { env with time := t } eventId) ?_
  intro t
  obtain ⟨m, e, hm, he, hval⟩ :=
    hnum (.str (correlationId { env with time := t } eventId))
  exact ⟨m, e, hm, Nat.lt_succ_of_le he, hval⟩

/-! ## The claims -/

/-- C1 (the code departs from the claim): after a successful `createTicket`, a
`completePurchase` whose payment is verified traps, whatever the memo: line 353 hands
the `nat64` memo to the map of pending tickets, whose keys are `text`.  The state is
left as it was: no settled ticket is written, no `soldAmount` moves, and the reserved
ticket is still pending under its `text` id. -/
theorem C1_settle_after_reserve_traps (env env' : Env) (s s₁ : State)
    (payload : TicketPayload) (ret : TicketReturn) (seller : Principal) (id : String)
    (price block memo : Nat)
    (hr : createTicket env s payload = (.Ok ret, s₁))
    (hv : verifyPaymentInternal env' seller price block memo = true) :
    completePurchase env' s₁ seller id price block memo
      = (.Trap ("Invalid text argument: BigInt(" ++ toString memo ++ ")"), s₁) ∧
    (completePurchase env' s₁ seller id price block memo).2.eventTickets.get ret.id
      = some { id := ret.id, eventId := ret.eventId, price := ret.price,
               userId := ret.userId } := by
  refine ⟨completePurchase_verified env' s₁ seller id price block memo hv, ?_⟩
  rw [completePurchase_state]
  obtain ⟨event, user, _, _, hret, hs₁⟩ := createTicket_ok hr
  subst hret hs₁
  exact StableBTreeMap.get_insert_self _ _ _

/-- C1 at the sample catalog: the reservation succeeds, block 42 pays it, and the
settlement traps and leaves the ticket `t1` pending. -/
theorem C1_settle_after_reserve_traps_witness :
    createTicket (sampleEnv "t1") sampleCatalog { eventId := "e1", userId := "u1" }
      = (.Ok sampleReturn, sampleReserved) ∧
    verifyPaymentInternal (sampleEnv "x") "seller" 500000000 42 7 = true ∧
    completePurchase (sampleEnv "x") sampleReserved "seller" "e1" 500000000 42 7
      = (.Trap ("Invalid text argument: BigInt(" ++ toString 7 ++ ")"), sampleReserved) ∧
    (completePurchase (sampleEnv "x") sampleReserved "seller" "e1" 500000000 42
      7).2.eventTickets.get sampleReturn.id
      = some { id := sampleReturn.id, eventId := sampleReturn.eventId,
               price := sampleReturn.price, userId := sampleReturn.userId } :=
  ⟨by decide, by decide,
    C1_settle_after_reserve_traps (sampleEnv "t1") (sampleEnv "x") sampleCatalog
      sampleReserved { eventId := "e1", userId := "u1" } sampleReturn "seller" "e1"
      500000000 42 7 (by decide) (by decide)⟩

/-- C2: when `verifyPaymentInternal` answers false, `completePurchase` answers
`Err NotFound` and the whole state (pending tickets, settled tickets, events with their
`soldAmount`) is the one before the call. -/
theorem C2_unverified_settle_changes_nothing (env : Env) (s : State) (seller : Principal)
    (id : String) (price block memo : Nat)
    (hv : verifyPaymentInternal env seller price block memo = false) :
    completePurchase env s seller id price block memo
      = (.Err (.NotFound ("cannot verify the payment, memo=" ++ toString memo)), s) :=
  completePurchase_unverified env s seller id price block memo hv

/-- C2 at the state after the sample reservation, against the underpaid block 44. -/
theorem C2_unverified_settle_changes_nothing_witness :
    verifyPaymentInternal (sampleEnv "x") "seller" 500000000 44 7 = false ∧
    completePurchase (sampleEnv "x") sampleReserved "seller" "e1" 500000000 44 7
      = (.Err (.NotFound ("cannot verify the payment, memo=" ++ toString 7)),
          sampleReserved) :=
  ⟨by decide,
    C2_unverified_settle_changes_nothing (sampleEnv "x") sampleReserved "seller" "e1"
      500000000 44 7 (by decide)⟩

/-- C3 (the code departs from the claim): no call of `completePurchase` answers `Ok`,
and a call with the same memo made in the state that the first call left traps when its
payment is verified, instead of answering `Err NotFound`; it changes nothing. -/
theorem C3_second_settle_traps (env env' : Env) (s : State) (seller seller' : Principal)
    (id id' : String) (price price' block block' memo : Nat)
    (hv : verifyPaymentInternal env' seller' price' block' memo = true) :
    (completePurchase env s seller id price block memo).1.isOk = false ∧
    completePurchase env' (completePurchase env s seller id price block memo).2 seller' id'
        price' block' memo
      = (.Trap ("Invalid text argument: BigInt(" ++ toString memo ++ ")"),
          (completePurchase env s seller id price block memo).2) := by
  refine ⟨?_, completePurchase_verified env' _ seller' id' price' block' memo hv⟩
  cases h : verifyPaymentInternal env seller price block memo with
  | false => rw [completePurchase_unverified env s seller id price block memo h]; rfl
  | true => rw [completePurchase_verified env s seller id price block memo h]; rfl

/-- C3 at the state after the sample reservation: two settlements against the paid
block 42, neither of which answers `Ok` or `Err NotFound`. -/
theorem C3_second_settle_traps_witness :
    verifyPaymentInternal (sampleEnv "x") "seller" 500000000 42 7 = true ∧
    (completePurchase (sampleEnv "x") sampleReserved "seller" "e1" 500000000 42 7).1.isOk
      = false ∧
    completePurchase (sampleEnv "x")
        (completePurchase (sampleEnv "x") sampleReserved "seller" "e1" 500000000 42 7).2
        "seller" "e1" 500000000 42 7
      = (.Trap ("Invalid text argument: BigInt(" ++ toString 7 ++ ")"),
          (completePurchase (sampleEnv "x") sampleReserved "seller" "e1" 500000000 42
            7).2) :=
  ⟨by decide,
    C3_second_settle_traps (sampleEnv "x") (sampleEnv "x") sampleReserved "seller" "seller"
      "e1" "e1" 500000000 500000000 42 42 7 (by decide)⟩

/-- C4 as stated fails: block 45 of the sample ledger is sent from an address that is
not the one derived from the caller, and `verifyPaymentInternal` accepts it, because the
two addresses have the same hash. -/
theorem C4_counterexample :
    (sampleEnv "x").query_blocks 45 1 = [sampleForeignBlock] ∧
    sampleForeignBlock.operation = some (.Transfer
      { from_ := (sampleAddress "buyer" 0).reverse, to_ := sampleAddress "seller" 0,
        amount_e8s := 500000000 }) ∧
    (sampleAddress "buyer" 0).reverse
      ≠ (sampleEnv "x").binaryAddressFromPrincipal (sampleEnv "x").caller 0 ∧
    verifyPaymentInternal (sampleEnv "x") "seller" 500000000 45 7 = true := by
  decide

/-- C4, amended: `verifyPaymentInternal` answers false whenever the fetched block has no
transfer operation, or its memo is not the expected memo, or its amount is not the
expected amount, or the hash of its sender address is not the hash of the address derived
from the caller, or the hash of its receiver address is not the hash of the address
derived from the receiver. -/
theorem C4_verify_false_on_mismatch (env : Env) (receiver : Principal)
    (amount block memo : Nat) (b : Block)
    (hq : env.query_blocks block 1 = [b])
    (h : b.operation.bind Operation.transfer? = none ∨ b.memo ≠ memo ∨
      ∃ t, b.operation = some (.Transfer t) ∧
        (t.amount_e8s ≠ amount ∨
         hash env (.bytes t.from_)
           ≠ hash env (.bytes (env.binaryAddressFromPrincipal env.caller 0)) ∨
         hash env (.bytes t.to_)
           ≠ hash env (.bytes (env.binaryAddressFromPrincipal receiver 0)))) :
    verifyPaymentInternal env receiver amount block memo = false := by
  have hb : blockMatches env receiver amount memo b = false := by
    unfold blockMatches
    cases hop : b.operation with
    | none => rfl
    | some op =>
      cases op with
      | Transfer t =>
        rcases h with h | h | ⟨t', ht', h⟩
        · simp [hop, Operation.transfer?] at h
        · simp [Operation.transfer?, h]
        · rw [hop] at ht'
          cases ht'
          rcases h with h | h | h
          · simp [Operation.transfer?, Ne.symm h]
          · simp [Operation.transfer?, Ne.symm h]
          · simp [Operation.transfer?, Ne.symm h]
      | Mint => simp [Operation.transfer?]
      | Burn => simp [Operation.transfer?]
  simp [verifyPaymentInternal, hq, List.find?, hb]

/-- C4, amended, at the underpaid block 44 of the sample ledger. -/
theorem C4_verify_false_on_mismatch_witness :
    verifyPaymentInternal (sampleEnv "x") "seller" 500000000 44 7 = false :=
  C4_verify_false_on_mismatch (sampleEnv "x") "seller" 500000000 44 7 sampleUnderpaidBlock
    (by decide)
    (Or.inr (Or.inr ⟨_, rfl, Or.inl (by decide)⟩))

/-- C5: `createTicket` answers `Err NotFound` exactly when the event id or the user id
does not resolve in its map, and then the state is the one before the call. -/
theorem C5_reserve_not_found_iff (env : Env) (s : State) (payload : TicketPayload) :
    ((∃ msg, (createTicket env s payload).1 = .Err (.NotFound msg)) ↔
      (s.eventsStorage.get payload.eventId = none ∨
        s.usersStorage.get payload.userId = none)) ∧
    ((s.eventsStorage.get payload.eventId = none ∨
        s.usersStorage.get payload.userId = none) →
      (createTicket env s payload).2 = s) := by
  unfold createTicket
  cases hu : s.usersStorage.get payload.userId with
  | none => simp
  | some user =>
    cases he : s.eventsStorage.get payload.eventId with
    | none => simp
    | some event => simp

/-- C5 at the sample catalog, for a user id that does not resolve. -/
theorem C5_reserve_not_found_iff_witness :
    (∃ msg, (createTicket (sampleEnv "t1") sampleCatalog
      { eventId := "e1", userId := "nobody" }).1 = .Err (.NotFound msg)) ∧
    (createTicket (sampleEnv "t1") sampleCatalog { eventId := "e1", userId := "nobody" }).2
      = sampleCatalog :=
  ⟨(C5_reserve_not_found_iff (sampleEnv "t1") sampleCatalog
      { eventId := "e1", userId := "nobody" }).1.2 (Or.inr (by decide)),
   (C5_reserve_not_found_iff (sampleEnv "t1") sampleCatalog
      { eventId := "e1", userId := "nobody" }).2 (Or.inr (by decide))⟩

/-- C6: every call of `completePurchase`, whatever it answers, leaves the map of
settled tickets as it was: every settled ticket stored before the call is stored
afterwards under the same principal with the same content. -/
theorem C6_settle_keeps_settled_tickets (env : Env) (s : State) (seller : Principal)
    (id : String) (price block memo : Nat) :
    (completePurchase env s seller id price block memo).2.persistedTickets
      = s.persistedTickets ∧
    ∀ (p : Principal) (t : Ticket), s.persistedTickets.get p = some t →
      (completePurchase env s seller id price block memo).2.persistedTickets.get p
        = some t := by
  rw [completePurchase_state]
  exact ⟨rfl, fun _ _ h => h⟩

/-- C7 (the code departs from the claim): no call of `completePurchase` changes an
event: every event id resolves afterwards to the record it resolved to before, so no
`soldAmount` is incremented; line 369 is not reached. -/
theorem C7_settle_changes_no_event (env : Env) (s : State) (seller : Principal)
    (id : String) (price block memo : Nat) :
    (completePurchase env s seller id price block memo).2.eventsStorage = s.eventsStorage ∧
    ∀ k : String,
      ((completePurchase env s seller id price block memo).2.eventsStorage.get k).map
          Event.soldAmount
        = (s.eventsStorage.get k).map Event.soldAmount := by
  rw [completePurchase_state]
  exact ⟨rfl, fun _ => rfl⟩

/-- C7 at the state after the sample reservation: the payment of block 42 is verified
and `soldAmount` of the sample event is 0 before and after the settlement. -/
theorem C7_settle_changes_no_event_witness :
    verifyPaymentInternal (sampleEnv "x") "seller" 500000000 42 7 = true ∧
    (sampleReserved.eventsStorage.get "e1").map Event.soldAmount = some 0 ∧
    ((completePurchase (sampleEnv "x") sampleReserved "seller" "e1" 500000000 42
      7).2.eventsStorage.get "e1").map Event.soldAmount = some 0 :=
  ⟨by decide, by decide,
    ((C7_settle_changes_no_event (sampleEnv "x") sampleReserved "seller" "e1" 500000000 42
      7).2 "e1").trans (by decide)⟩

/-- C8 (the code departs from the claim): in every reachable state the map of settled
tickets is empty, and `getSoldTickets` lists no ticket for any event: no settled ticket
is ever written, under the caller or anyone else. -/
theorem C8_no_settled_ticket_is_stored (s : State) (hs : Reachable s) :
    s.persistedTickets = StableBTreeMap.empty ∧
    (∀ p : Principal, s.persistedTickets.get p = none) ∧
    ∀ (id : String) (tickets : List Ticket),
      getSoldTickets s id = .Ok tickets → tickets = [] := by
  have h := reachable_persistedTickets hs
  refine ⟨h, fun p => by rw [h]; rfl, ?_⟩
  intro id tickets hget
  unfold getSoldTickets at hget
  cases he : s.eventsStorage.get id with
  | none => simp [he] at hget
  | some event =>
    simp only [he, Reply.Ok.injEq] at hget
    rw [← hget, h]
    rfl

/-- C8 at the state that the sample reservation and the settlement against the paid
block 42 leave: the buyer holds no settled ticket and none is listed for the event. -/
theorem C8_no_settled_ticket_is_stored_witness :
    (completePurchase (sampleEnv "x") sampleReserved "seller" "e1" 500000000 42
      7).2.persistedTickets.get "buyer" = none ∧
    getSoldTickets
      (completePurchase (sampleEnv "x") sampleReserved "seller" "e1" 500000000 42 7).2 "e1"
      = .Ok [] :=
  ⟨(C8_no_settled_ticket_is_stored _
      (Reachable.step reachable_sampleReserved
        (Step.completePurchase (sampleEnv "x") sampleReserved "seller" "e1" 500000000 42
          7))).2.1 "buyer",
    by decide⟩

/-- C9: after a successful `createTicket` the pending ticket stored under the returned id
and the returned summary carry the price and the id of the event found under the
requested event id and the requested user id, and the summary carries the title of that
event and the name, email and phone of the user found under the requested user id. -/
theorem C9_reserve_snapshots_event_and_user (env : Env) (s s' : State)
    (payload : TicketPayload) (ret : TicketReturn)
    (h : createTicket env s payload = (.Ok ret, s')) :
    ∃ event user, s.eventsStorage.get payload.eventId = some event ∧
      s.usersStorage.get payload.userId = some user ∧
      s'.eventTickets.get ret.id
        = some { id := ret.id, eventId := event.id, price := event.price,
                 userId := payload.userId } ∧
      ret.price = event.price ∧ ret.eventId = event.id ∧ ret.userId = payload.userId ∧
      ret.eventName = event.title ∧ ret.userName = user.name ∧
      ret.userEmail = user.email ∧ ret.userPhone = user.phone := by
  obtain ⟨event, user, he, hu, hret, hs'⟩ := createTicket_ok h
  subst hret hs'
  exact ⟨event, user, he, hu, StableBTreeMap.get_insert_self _ _ _,
    rfl, rfl, rfl, rfl, rfl, rfl, rfl⟩

/-- C9 at the sample catalog. -/
theorem C9_reserve_snapshots_event_and_user_witness :
    ∃ event user, sampleCatalog.eventsStorage.get "e1" = some event ∧
      sampleCatalog.usersStorage.get "u1" = some user ∧
      sampleReserved.eventTickets.get sampleReturn.id
        = some { id := sampleReturn.id, eventId := event.id, price := event.price,
                 userId := "u1" } ∧
      sampleReturn.price = event.price ∧ sampleReturn.eventId = event.id ∧
      sampleReturn.userId = "u1" ∧
      sampleReturn.eventName = event.title ∧ sampleReturn.userName = user.name ∧
      sampleReturn.userEmail = user.email ∧ sampleReturn.userPhone = user.phone :=
  C9_reserve_snapshots_event_and_user (sampleEnv "t1") sampleCatalog sampleReserved
    { eventId := "e1", userId := "u1" } sampleReturn (by decide)

/-- C10 as stated fails: the key `t1` already maps to a pending ticket of price 500000000,
`createTicket` draws `t1` again, answers `Ok`, and the map then holds the new ticket of
price 600000000 under `t1`, not the old one. -/
theorem C10_counterexample :
    sampleRepriced.eventTickets.get "t1" = some sampleTicket ∧
    (createTicket (sampleEnv "t1") sampleRepriced { eventId := "e1", userId := "u1" }).1.isOk
      = true ∧
    (createTicket (sampleEnv "t1") sampleRepriced
      { eventId := "e1", userId := "u1" }).2.eventTickets.get "t1"
      = some { sampleTicket with price := 600000000 } ∧
    (createTicket (sampleEnv "t1") sampleRepriced
      { eventId := "e1", userId := "u1" }).2.eventTickets.get "t1"
      ≠ some sampleTicket := by
  decide

/-- C10, amended: when the event and the user resolve and the drawn key already maps to a
pending ticket, `createTicket` answers `Ok` and the map holds the new ticket under that
key. -/
theorem C10_reserve_replaces_existing_key (env : Env) (s : State) (payload : TicketPayload)
    (old : Ticket) (event : Event) (user : User)
    (_hold : s.eventTickets.get env.uuid = some old)
    (he : s.eventsStorage.get payload.eventId = some event)
    (hu : s.usersStorage.get payload.userId = some user) :
    (createTicket env s payload).1.isOk = true ∧
    (createTicket env s payload).2.eventTickets.get env.uuid
      = some { id := env.uuid, eventId := event.id, price := event.price,
               userId := payload.userId } := by
  unfold createTicket
  simp only [he, hu]
  exact ⟨rfl, StableBTreeMap.get_insert_self _ _ _⟩

/-- C10, amended, at the sample state in which `t1` is taken and the price was raised. -/
theorem C10_reserve_replaces_existing_key_witness :
    (createTicket (sampleEnv "t1") sampleRepriced { eventId := "e1", userId := "u1" }).1.isOk
      = true ∧
    (createTicket (sampleEnv "t1") sampleRepriced
      { eventId := "e1", userId := "u1" }).2.eventTickets.get (sampleEnv "t1").uuid
      = some { id := (sampleEnv "t1").uuid, eventId := "e1", price := 600000000,
               userId := "u1" } :=
  C10_reserve_replaces_existing_key (sampleEnv "t1") sampleRepriced
    { eventId := "e1", userId := "u1" } sampleTicket { sampleEvent with price := 600000000 }
    { sampleUser with tickets := ["t1"] } (by decide) (by decide) (by decide)

/-- C11 (the code departs from the claim): in every reachable state, a successful
`createTicket` leaves the canister without any armed timer; `createTicket` never calls
`discardByTimeout`. -/
theorem C11_reserve_arms_no_timer (env : Env) (s s' : State) (payload : TicketPayload)
    (ret : TicketReturn) (hs : Reachable s)
    (h : createTicket env s payload = (.Ok ret, s')) :
    s'.timers = [] := by
  have h' : Reachable s' := by
    have := Reachable.step hs (Step.createTicket env s payload)
    rw [h] at this
    exact this
  exact reachable_timers h'

/-- C11 at the sample catalog: the reservation succeeds and no timer is armed. -/
theorem C11_reserve_arms_no_timer_witness :
    createTicket (sampleEnv "t1") sampleCatalog { eventId := "e1", userId := "u1" }
      = (.Ok sampleReturn, sampleReserved) ∧
    sampleReserved.timers = [] :=
  ⟨by decide,
    C11_reserve_arms_no_timer (sampleEnv "t1") sampleCatalog sampleReserved
      { eventId := "e1", userId := "u1" } sampleReturn reachable_sampleCatalog (by decide)⟩

/-- C12 (the code departs from the claim): the timer callback traps at
`eventTickets.remove(memo)` and removes nothing, so every pending ticket is still
pending after it; a `completePurchase` with that memo and a verified payment then traps
as well, instead of answering `Err NotFound`. -/
theorem C12_timer_callback_removes_nothing (env : Env) (s : State) (seller : Principal)
    (id : String) (price block memo : Nat)
    (hv : verifyPaymentInternal env seller price block memo = true) :
    discardCallback memo s
      = (.Trap ("Invalid text argument: BigInt(" ++ toString memo ++ ")"), s) ∧
    completePurchase env (discardCallback memo s).2 seller id price block memo
      = (.Trap ("Invalid text argument: BigInt(" ++ toString memo ++ ")"), s) := by
  refine ⟨discardCallback_traps memo s, ?_⟩
  rw [discardCallback_traps]
  exact completePurchase_verified env s seller id price block memo hv

/-- C12 at the state after the sample reservation: the callback for the memo 7 leaves
the ticket `t1` pending, and the settlement against the paid block 42 traps. -/
theorem C12_timer_callback_removes_nothing_witness :
    verifyPaymentInternal (sampleEnv "x") "seller" 500000000 42 7 = true ∧
    (discardCallback 7 sampleReserved).2.eventTickets.get "t1" = some sampleTicket ∧
    discardCallback 7 sampleReserved
      = (.Trap ("Invalid text argument: BigInt(" ++ toString 7 ++ ")"), sampleReserved) ∧
    completePurchase (sampleEnv "x") (discardCallback 7 sampleReserved).2 "seller" "e1"
        500000000 42 7
      = (.Trap ("Invalid text argument: BigInt(" ++ toString 7 ++ ")"), sampleReserved) :=
  ⟨by decide, by decide,
    C12_timer_callback_removes_nothing (sampleEnv "x") sampleReserved "seller" "e1"
      500000000 42 7 (by decide)⟩

/-- C13 as stated fails: `updateEvent` stores the `soldAmount` of its payload, here 2 in
place of 5, for an event that exists before and after the call. -/
theorem C13_counterexample :
    (sampleSold.eventsStorage.get "e1").map Event.soldAmount = some 5 ∧
    ((updateEvent sampleSold { sampleEvent with soldAmount := 2 }).2.eventsStorage.get
      "e1").map Event.soldAmount = some 2 := by
  decide

/-- C13, amended: every step of the canister other than `updateEvent` (`addEvent`
drawing an unused id) leaves the `soldAmount` of an event that exists before and after
the step greater than or equal to what it was. -/
theorem C13_sold_amount_non_decreasing (s s' : State) (id : String) (e e' : Event)
    (hstep : StepExceptUpdateEvent s s')
    (he : s.eventsStorage.get id = some e) (he' : s'.eventsStorage.get id = some e') :
    e.soldAmount ≤ e'.soldAmount := by
  have same : s.eventsStorage.get id = some e' → e.soldAmount ≤ e'.soldAmount := by
    intro h
    rw [he] at h
    cases h
    exact Nat.le_refl _
  cases hstep with
  | addEvent env _ payload hfresh =>
    have hne : id ≠ env.uuid := by
      intro h
      rw [h, hfresh] at he
      cases he
    have h : (s.eventsStorage.insert env.uuid _).get id = some e' := he'
    rw [StableBTreeMap.get_insert_ne _ _ hne] at h
    exact same h
  | addUser env _ payload => exact same he'
  | updateUser _ payload =>
    unfold updateUser at he'
    cases hu : s.usersStorage.get payload.id with
    | none => rw [hu] at he'; exact same he'
    | some user => rw [hu] at he'; exact same he'
  | deleteEvent _ k =>
    have h : ((s.eventsStorage.remove k).2).get id = some e' := by
      simp only [deleteEvent] at he'
      split at he' <;> exact he'
    by_cases hk' : id = k
    · rw [hk', StableBTreeMap.get_remove_self] at h
      cases h
    · rw [StableBTreeMap.get_remove_ne _ hk'] at h
      exact same h
  | createTicket env _ payload =>
    unfold createTicket at he'
    cases hu : s.usersStorage.get payload.userId with
    | none => rw [hu] at he'; exact same he'
    | some user =>
      cases hev : s.eventsStorage.get payload.eventId with
      | none => rw [hu, hev] at he'; exact same he'
      | some event => rw [hu, hev] at he'; exact same he'
  | completePurchase env _ seller id₀ price block memo =>
    rw [completePurchase_state] at he'
    exact same he'
  | timer _ t ht =>
    rw [discardCallback_traps] at he'
    exact same he'

/-- C13, amended, at the sample catalog, for the step of the sample reservation: the
sample event exists before and after it with `soldAmount` 0. -/
theorem C13_sold_amount_non_decreasing_witness :
    sampleCatalog.eventsStorage.get "e1" = some sampleEvent ∧
    (createTicket (sampleEnv "t1") sampleCatalog
      { eventId := "e1", userId := "u1" }).2.eventsStorage.get "e1" = some sampleEvent ∧
    sampleEvent.soldAmount ≤ sampleEvent.soldAmount :=
  ⟨by decide, by decide,
    C13_sold_amount_non_decreasing sampleCatalog _ "e1" sampleEvent sampleEvent
      (StepExceptUpdateEvent.createTicket (sampleEnv "t1") sampleCatalog
        { eventId := "e1", userId := "u1" })
      (by decide) (by decide)⟩

/-- C14 as stated fails: whatever the library function `hashCode().value` is, when its
results are integers that a JavaScript number can hold (as those of a library with
constant hash code 0 are), it is not the case that any two different `nat64` timestamps
give different correlation ids. -/
theorem C14_counterexample :
    (∀ v, IsJsInteger (sampleZeroHashEnv.hashCode v)) ∧
    ¬ ∃ env : Env, (∀ v, IsJsInteger (env.hashCode v)) ∧
      ∀ (eventId : String) (t₁ t₂ : Nat), t₁ < nat64Bound → t₂ < nat64Bound → t₁ ≠ t₂ →
        generateCorrelationId { env with time := t₁ } eventId
          ≠ generateCorrelationId { env with time := t₂ } eventId := by
  constructor
  · intro v
    exact ⟨0, 0, by norm_num, by norm_num, rfl⟩
  · rintro ⟨env, hnum, hclaim⟩
    obtain ⟨t₁, t₂, h₁, h₂, hne, heq⟩ := generateCorrelationId_collision env hnum ""
    exact hclaim "" t₁ t₂ h₁ h₂ hne heq

/-- C14, amended: for every event id and caller and every two different timestamps, the
generator hashes two different strings `eventId_caller_time`. -/
theorem C14_different_times_different_strings (env : Env) (eventId : String) (t₁ t₂ : Nat)
    (h : t₁ ≠ t₂) :
    correlationId { env with time := t₁ } eventId
      ≠ correlationId { env with time := t₂ } eventId := by
  intro e
  exact h (toString_nat_injective (append_left_cancel_string e))

/-- C14, amended, at the sample environment and the timestamps 1 and 2. -/
theorem C14_different_times_different_strings_witness :
    correlationId { sampleEnv "t1" with time := 1 } "e1" = "e1_buyer_1" ∧
    correlationId { sampleEnv "t1" with time := 2 } "e1" = "e1_buyer_2" ∧
    correlationId { sampleEnv "t1" with time := 1 } "e1"
      ≠ correlationId { sampleEnv "t1" with time := 2 } "e1" :=
  ⟨by decide, by decide,
    C14_different_times_different_strings (sampleEnv "t1") "e1" 1 2 (by decide)⟩

/-- C17: in every reachable state the user of each pending ticket resolves, each user is
stored under its own id, the pending tickets have pairwise different keys, and
`getEventTickets` answers `Ok` for every id; for an event that exists its rows are, in
order, one per pending ticket whose `eventId` is the requested id. -/
theorem C17_event_tickets_rows (s : State) (hs : Reachable s) :
    (∀ t ∈ s.eventTickets.values, ∃ u, s.usersStorage.get t.userId = some u) ∧
    (∀ (k : String) (u : User), s.usersStorage.get k = some u → u.id = k) ∧
    (s.eventTickets.entries.map Prod.fst).Nodup ∧
    ∀ id : String, ∃ rows, getEventTickets s id = .Ok rows ∧
      ∀ event : Event, s.eventsStorage.get id = some event →
        rows.map TicketReturn.id
          = (s.eventTickets.values.filter (fun t => decide (t.eventId = id))).map
              Ticket.id := by
  refine ⟨reachable_ticketUsersResolve hs, reachable_usersKeyedById hs,
    reachable_ticketKeysNodup hs, ?_⟩
  intro id
  unfold getEventTickets
  cases he : s.eventsStorage.get id with
  | none => exact ⟨[], rfl, fun event h => by cases h⟩
  | some event =>
    have hid : event.id = id := reachable_eventsKeyedById hs id event he
    obtain ⟨rows, hrows, hids, _⟩ := collectRows_of_resolve s event
      (s.eventTickets.values.filter (fun t => decide (t.eventId = event.id)))
      (fun t ht => reachable_ticketUsersResolve hs t (List.mem_of_mem_filter ht))
    refine ⟨rows, ?_, ?_⟩
    · simp only [hrows]
    · intro event' _
      rw [hids, hid]

/-- C17 at the state after the sample reservation: one row, for the ticket `t1`. -/
theorem C17_event_tickets_rows_witness :
    ∃ rows, getEventTickets sampleReserved "e1" = .Ok rows ∧
      ∀ event : Event, sampleReserved.eventsStorage.get "e1" = some event →
        rows.map TicketReturn.id
          = (sampleReserved.eventTickets.values.filter
              (fun t => decide (t.eventId = "e1"))).map Ticket.id :=
  (C17_event_tickets_rows sampleReserved reachable_sampleReserved).2.2.2 "e1"

end EventManager
